import Mathlib

/-!
Verification development for the Slack/iTop ticketing bridge (src/app.py).

The Python source is shallowly embedded: its string manipulations are modelled
by executable functions over `String`/`List Char` that mirror Python's string
semantics (`find`, slicing, `split`, `strip`, `replace`, `in`, `lower`,
`html.escape`, and the two `re.findall` patterns used by the source), and each
handler is modelled as a pure function from its inputs (persisted tracker file,
user-database rows, event/webhook payload, and oracles for the responses of the
external Slack/iTop services) to the list of outbound effects it performs plus
the new persisted state.  Fallible paths of the source (Python `IndexError` /
`NameError` crashes) are modelled by `Option`.
-/

set_option maxRecDepth 100000

/-- Newline character as a string (Python "\n"). -/
def nlStr : String := String.singleton (Char.ofNat 10)

/-- Python `str.isspace` on the ASCII whitespace characters recognised by
`str.strip()` / `str.rstrip()`: space, tab, newline, carriage return,
vertical tab, form feed. -/
def pyIsSpace (c : Char) : Bool :=
  c == Char.ofNat 32 || c == Char.ofNat 9 || c == Char.ofNat 10 ||
  c == Char.ofNat 13 || c == Char.ofNat 11 || c == Char.ofNat 12

/-- Whether the first list is a leading segment of the second. -/
def startsL : List Char → List Char → Bool
  | [], _ => true
  | _ :: _, [] => false
  | a :: u, b :: v => a == b && startsL u v

/-- Index of the first occurrence of `sub` inside `l` (leftmost match),
or `none` when `sub` does not occur: the core of Python `str.find`. -/
def findSubAux (sub : List Char) : List Char → Option Nat
  | [] => if sub.isEmpty then some 0 else none
  | c :: t => if startsL sub (c :: t) then some 0 else (findSubAux sub t).map (fun k => k + 1)

/-- Python `s.find(sub)`: index of the first occurrence, `-1` when absent. -/
def pyFind (s sub : String) : Int :=
  match findSubAux sub.data s.data with
  | some n => (n : Int)
  | none => -1

/-- Python `s.find(sub, start)` with Python's normalisation of a negative or
out-of-range `start`. -/
def pyFindFrom (s sub : String) (start : Int) : Int :=
  let n := s.data.length
  let st := if start < 0 then ((n : Int) + start).toNat else start.toNat
  if st > n then -1
  else
    match findSubAux sub.data (s.data.drop st) with
    | some k => ((st + k : Nat) : Int)
    | none => -1

/-- Python `sub in s` (substring containment). -/
def pyIn (sub s : String) : Bool :=
  (findSubAux sub.data s.data).isSome

/-- Python `s[a:]` with Python's index normalisation (negative indices count
from the end, out-of-range indices are clamped). -/
def pySliceFrom (s : String) (a : Int) : String :=
  let n := s.data.length
  let sa := if a < 0 then ((n : Int) + a).toNat else min a.toNat n
  String.mk (s.data.drop sa)

/-- Python `s[a:b]` with Python's index normalisation. -/
def pySlice (s : String) (a b : Int) : String :=
  let n := s.data.length
  let sa := if a < 0 then ((n : Int) + a).toNat else min a.toNat n
  let sb := if b < 0 then ((n : Int) + b).toNat else min b.toNat n
  String.mk ((s.data.take sb).drop sa)

/-- Python `s[:n]` for a nonnegative literal `n`. -/
def pyTake (n : Nat) (s : String) : String := String.mk (s.data.take n)

/-- Python `s[n:]` for a nonnegative literal `n`. -/
def pyDrop (n : Nat) (s : String) : String := String.mk (s.data.drop n)

/-- Remove trailing characters satisfying `p`. -/
def stripRightBy (p : Char → Bool) (l : List Char) : List Char :=
  (l.reverse.dropWhile p).reverse

/-- Python `s.rstrip()` (trailing whitespace removed). -/
def pyRstripWs (s : String) : String := String.mk (stripRightBy pyIsSpace s.data)

/-- Python `s.rstrip(">")` as used on matched hyperlinks. -/
def pyRstripGt (s : String) : String :=
  String.mk (stripRightBy (fun c => c == Char.ofNat 62) s.data)

/-- Python `s.strip()` (whitespace removed at both ends). -/
def pyStrip (s : String) : String :=
  String.mk ((stripRightBy pyIsSpace s.data).dropWhile pyIsSpace)

/-- Python `s.lower()` (ASCII case folding, character by character). -/
def pyLower (s : String) : String := String.mk (s.data.map Char.toLower)

/-- Python `s.split(sep)` for a nonempty separator: worker with fuel; every
step consumes at least one character, so `s.length` fuel is always enough. -/
def pySplitGo (sep : List Char) : Nat → List Char → List Char → List (List Char)
  | _, acc, [] => [acc.reverse]
  | 0, acc, rest => [acc.reverse ++ rest]
  | fuel + 1, acc, c :: t =>
    if startsL sep (c :: t) then
      acc.reverse :: pySplitGo sep fuel [] (t.drop (sep.length - 1))
    else
      pySplitGo sep fuel (c :: acc) t

/-- Python `s.split(sep)` (the source only splits on nonempty separators). -/
def pySplit (s sep : String) : List String :=
  (pySplitGo sep.data s.data.length [] s.data).map String.mk

/-- Python `s.replace(old, new)` on character lists: worker with fuel; for a
nonempty `old` every step consumes at least one character. -/
def pyReplaceGo (old new : List Char) : Nat → List Char → List Char
  | _, [] => []
  | 0, s => s
  | fuel + 1, c :: t =>
    if startsL old (c :: t) then
      new ++ pyReplaceGo old new fuel (t.drop (old.length - 1))
    else
      c :: pyReplaceGo old new fuel t

/-- Python `s.replace(old, new)` (all non-overlapping occurrences, left to
right; an empty `old` intersperses `new` as Python does). -/
def pyReplace (s old new : String) : String :=
  if old.data.isEmpty then
    String.mk (new.data ++ s.data.flatMap (fun c => c :: new.data))
  else
    String.mk (pyReplaceGo old.data new.data s.data.length s.data)


/-- Matches of the regex `<([^>]+)>` (captured inner texts, non-overlapping,
left to right) as produced by `re.findall` in `raise_ticket`.  Worker with
fuel; every step consumes at least one character of the scanned list. -/
def findTokensGo : Nat → List Char → List (List Char)
  | 0, _ => []
  | _ + 1, [] => []
  | fuel + 1, c :: t =>
    if c == Char.ofNat 60 then
      let inner := t.takeWhile (fun d => !(d == Char.ofNat 62))
      let rest := t.dropWhile (fun d => !(d == Char.ofNat 62))
      match rest with
      | [] => findTokensGo fuel t
      | _ :: after => if inner.isEmpty then findTokensGo fuel t else inner :: findTokensGo fuel after
    else
      findTokensGo fuel t

/-- re.findall of `<([^>]+)>` over a string. -/
def findTokens (s : String) : List String :=
  (findTokensGo s.data.length s.data).map String.mk

/-- Matches of the regex `(https?://\S+)` (non-overlapping, left to right) as
produced by `re.findall` in `raise_ticket`: the scheme followed by the maximal
run of non-whitespace characters.  Worker with fuel. -/
def findUrlsGo : Nat → List Char → List (List Char)
  | 0, _ => []
  | _ + 1, [] => []
  | fuel + 1, c :: t =>
    if startsL ("https://").data (c :: t) &&
        !((((c :: t).drop 8).takeWhile (fun d => !(pyIsSpace d))).isEmpty) then
      (("https://").data ++ ((c :: t).drop 8).takeWhile (fun d => !(pyIsSpace d))) ::
        findUrlsGo fuel (((c :: t).drop 8).dropWhile (fun d => !(pyIsSpace d)))
    else if startsL ("http://").data (c :: t) &&
        !((((c :: t).drop 7).takeWhile (fun d => !(pyIsSpace d))).isEmpty) then
      (("http://").data ++ ((c :: t).drop 7).takeWhile (fun d => !(pyIsSpace d))) ::
        findUrlsGo fuel (((c :: t).drop 7).dropWhile (fun d => !(pyIsSpace d)))
    else
      findUrlsGo fuel t

/-- re.findall of `(https?://\S+)` over a string. -/
def findUrls (s : String) : List String :=
  (findUrlsGo s.data.length s.data).map String.mk


/-- Python `html.escape(s)` with its default `quote=True`: replaces, in this
order, ampersand, angle brackets, double quote and apostrophe. -/
def htmlEscape (s : String) : String :=
  let s := pyReplace s "&" "&amp;"
  let s := pyReplace s "<" "&lt;"
  let s := pyReplace s ">" "&gt;"
  let s := pyReplace s (String.singleton (Char.ofNat 34)) "&quot;"
  pyReplace s (String.singleton (Char.ofNat 39)) ("&#x27" ++ String.singleton (Char.ofNat 59))


/-- One row of the `users` table of the sqlite identity store
(id, username, first_name, last_name, real_name, email, is_admin). -/
structure UserRow where
  id : String
  username : String
  first_name : String
  last_name : String
  real_name : String
  email : String
  is_admin : Bool
deriving DecidableEq

/-- Source `get_assigned_user_id`: `SELECT id FROM users WHERE real_name = ?`
with `fetchone` (first matching row), returning `None` on a miss. -/
def get_assigned_user_id (db : List UserRow) (real_name : String) : Option String :=
  (db.find? (fun r => r.real_name == real_name)).map (fun r => r.id)

/-- Source `get_user_info_from_db`: `SELECT first_name, last_name FROM users
WHERE id = ?`; `result or ("","")` yields the empty pair on a miss. -/
def get_user_info_from_db (db : List UserRow) (user_id : String) : String × String :=
  match db.find? (fun r => r.id == user_id) with
  | some r => (r.first_name, r.last_name)
  | none => ("", "")

/-- The ticket payload fields of the `core/create` call built by
`raise_ticket` (`caller_id.name` receives the last name, `caller_id.first_name`
the first name; `org_id` is a fixed selector and is omitted here). -/
structure TicketFields where
  caller_name : String
  caller_first_name : String
  description : String
  title : String
  slack_address : String
deriving DecidableEq

/-- Outbound effects performed by the handlers, in program order: writes of
the tracker file, Slack API calls, and iTop API calls. -/
inductive Effect where
  | saveThreads : List String → Effect
  | chatPostMessage : String → String → String → Effect
  | chatPostMessageDM : String → String → Effect
  | itopCreate : TicketFields → Effect
  | itopUpdate : String → String → Effect
  | logError : String → Effect
  | conversationsHistory : String → String → Effect
  | conversationsReplies : String → String → Effect
  | conversationsOpen : Option String → Effect
  | reactionsGet : String → String → Effect
  | reactionsAdd : String → String → String → Effect
  | reactionsRemove : String → String → String → Effect
deriving DecidableEq

/-- The tracker file, modelled as the list of raw lines it holds; the source's
`save_ticketed_threads` writes one token per line, newline-terminated. -/
def save_ticketed_threads (threads : List String) : List String :=
  threads.map (fun t => t ++ nlStr)

/-- Source `load_ticketed_threads`: reads the file line by line, right-strips
each line and collects the results into a set (modelled as a deduplicated
list; only membership in the set is ever consumed). -/
def load_ticketed_threads (file : List String) : List String :=
  (file.map pyRstripWs).dedup

/-- Membership test `thread_ts in ticketed_threads` of the create path. -/
def isOpen (file : List String) (t : String) : Bool :=
  decide (t ∈ load_ticketed_threads file)

/-- Tracker insertion of the create path: `ticketed_threads.add(thread_ts)`
followed by `save_ticketed_threads` (whole set persisted, overwrite). -/
def markOpen (file : List String) (t : String) : List String :=
  save_ticketed_threads
    (if t ∈ load_ticketed_threads file then load_ticketed_threads file
     else load_ticketed_threads file ++ [t])

/-- The resolve path's tracker rewrite: keeps exactly the raw lines in which
the thread token does not occur as a substring
(`[line for line in lines if slack_address not in line]`). -/
def markClosedLines (lines : List String) (slack_address : String) : List String :=
  lines.filter (fun line => !(pyIn slack_address line))

/-- Title derivation of `raise_ticket` (src/app.py lines 238-253): the ordered
if/elif chain over the raw message text, mixing case-folded and literal
containment tests exactly as the source does. -/
def deriveTitle (message : String) : String :=
  if pyIn "slack" (pyLower message) || pyIn "Slack" message then "Slack issue"
  else if pyIn "upload" message || pyIn "zoom.us" message then "Upload Consultation"
  else if pyIn "Shadowsocks" (pyLower message) || pyIn "shadowsocks" message ||
      pyIn "cannot connect to IPS" message then "Shadowsocks issue"
  else if pyIn "account" message || pyIn "disabled" message then "Google account disabled"
  else if pyIn "magic link" (pyLower message) || pyIn "update email" (pyLower message) ||
      pyIn "change the email id" (pyLower message) then "Expert / client email ID change request"
  else if pyIn "TnC" message || pyIn "renew" message then "TnC Issues"
  else if pyIn "hourly rate" message then "Financial rate change request"
  else ""

/-- Modelled from the spec: the rule table of section 4.2, one predicate/label
pair per rule, to be evaluated top-to-bottom (predicates transcribed from the
source's conditions; the ordering and first-match semantics are the spec's). -/
def ruleTable : List ((String → Bool) × String) :=
  [(fun m => pyIn "slack" (pyLower m) || pyIn "Slack" m, "Slack issue"),
   (fun m => pyIn "upload" m || pyIn "zoom.us" m, "Upload Consultation"),
   (fun m => pyIn "Shadowsocks" (pyLower m) || pyIn "shadowsocks" m ||
       pyIn "cannot connect to IPS" m, "Shadowsocks issue"),
   (fun m => pyIn "account" m || pyIn "disabled" m, "Google account disabled"),
   (fun m => pyIn "magic link" (pyLower m) || pyIn "update email" (pyLower m) ||
       pyIn "change the email id" (pyLower m), "Expert / client email ID change request"),
   (fun m => pyIn "TnC" m || pyIn "renew" m, "TnC Issues"),
   (fun m => pyIn "hourly rate" m, "Financial rate change request")]

/-- Modelled from the spec: return the label of the first rule whose predicate
matches, and the empty string when no rule matches. -/
def firstMatchTitle : List ((String → Bool) × String) → String → String
  | [], _ => ""
  | pr :: rest, m => if pr.1 m then pr.2 else firstMatchTitle rest m

/-- The human-readable label substituted for the designated special mention
token in descriptions. -/
def mentionLabel : String := "xxx Ticketing System"

/-- The designated special mention token hard-coded by the source. -/
def specialToken : String := "@XXXXXXXXXX"

/-- Description sanitisation of `raise_ticket` (src/app.py lines 255-275),
with the designated special mention token as a parameter (the source inlines
the constant `specialToken`): the URL pass replaces each found hyperlink,
right-stripped of `>`, by itself; the markup pass replaces each `<token>`
found in the original message by its inner text, or by `mentionLabel` for the
special token; finally the result is HTML-escaped. -/
def sanitizeDescriptionWith (special : String) (message : String) : String :=
  let description := message
  let description := (findUrls description).foldl
    (fun d h => pyReplace d (pyRstripGt h) (pyRstripGt h)) description
  let description := (findTokens message).foldl
    (fun d w =>
      if w = special then pyReplace d ("<" ++ w ++ ">") mentionLabel
      else pyReplace d ("<" ++ w ++ ">") w) description
  htmlEscape description

/-- The source's description sanitisation, with its hard-coded special token. -/
def sanitizeDescription (message : String) : String :=
  sanitizeDescriptionWith specialToken message

/-- The markup-stripping pass alone (no URL pass, no escaping): used to state
that sanitisation is exactly one markup pass followed by exactly one
HTML-escape. -/
def unwrapTokens (special : String) (message : String) : String :=
  (findTokens message).foldl
    (fun d w =>
      if w = special then pyReplace d ("<" ++ w ++ ">") mentionLabel
      else pyReplace d ("<" ++ w ++ ">") w) message

/-- An inbound `app_mention` event: channel id, event timestamp, optional
thread timestamp, author id, raw text. -/
structure MentionEvent where
  channel : String
  ts : String
  thread_ts : Option String
  user : String
  text : String
deriving DecidableEq

/-- Source `event.get('thread_ts') or event['ts']` (Python `or`: an absent or
empty `thread_ts` falls back to the event's own timestamp). -/
def threadTs (ev : MentionEvent) : String :=
  match ev.thread_ts with
  | some s => if s = "" then ev.ts else s
  | none => ev.ts

/-- Response oracle for the iTop `core/create` call: HTTP status, raw body
(used in the failure log), and the `friendlyname` carried by a well-formed
success body. -/
structure ItopCreateResp where
  status : Nat
  body : String
  friendlyname : String
deriving DecidableEq

/-- Reply posted when the thread is already in the tracker. -/
def alreadyReply (user : String) : String :=
  "Hi <@" ++ user ++ ">, we are resolving the ticket... Once we have any update, you will see it here. Stay tuned."

/-- Reply posted after a successful ticket creation. -/
def ticketReply (user friendly : String) : String :=
  "Hi <@" ++ user ++ ">, your request has been received and a ticket has been created with ticket number " ++
    friendly ++ ". You will be updated with the progress of this ticket."

/-- The `core/create` payload fields built by `raise_ticket`:
`caller_id.name` is the last name, `caller_id.first_name` the first name;
the back-link address is rebuilt from the channel and the dot-less thread
timestamp (`"".join(thread_ts.split('.'))`). -/
def buildFields (db : List UserRow) (ev : MentionEvent) : TicketFields :=
  let thread_ts := threadTs ev
  let thread_ts_fixed := String.join (pySplit thread_ts ".")
  let slack_address := "https://xxx.slack.com/archives/" ++ ev.channel ++ "/p" ++ thread_ts_fixed
  let fl := get_user_info_from_db db ev.user
  ⟨fl.2, fl.1, sanitizeDescription ev.text, deriveTitle ev.text, slack_address⟩

/-- The `app_mention` handler `raise_ticket` (src/app.py lines 203-315) as a
function from the tracker file, the identity store, the event and the iTop
response oracle to the new tracker file and the effect trace.  `none` models
the source's `NameError` crash when the thread timestamp is empty (the guard
`if thread_ts:` leaves `thread_ts_fixed` unbound); no network effect has
happened at that point, though the tracker file has already been rewritten. -/
def raise_ticket (db : List UserRow) (file : List String) (ev : MentionEvent)
    (resp : ItopCreateResp) : Option (List String × List Effect) :=
  let channel_id := ev.channel
  let thread_ts := threadTs ev
  if isOpen file thread_ts then
    some (file, [Effect.chatPostMessage channel_id (alreadyReply ev.user) thread_ts])
  else
    let file2 := markOpen file thread_ts
    if thread_ts = "" then
      none
    else
      let fields := buildFields db ev
      if resp.status ≠ 200 then
        some (file2,
          [Effect.saveThreads file2, Effect.itopCreate fields,
           Effect.logError ("Failed to create iTop ticket: " ++ resp.body)])
      else
        some (file2,
          [Effect.saveThreads file2, Effect.itopCreate fields,
           Effect.chatPostMessage channel_id (ticketReply ev.user resp.friendlyname) thread_ts])

/-- Shared webhook-text step: `text[text.find("Link to Slack:"):]` stripped. -/
def extractLink (text : String) : String :=
  pyStrip (pySliceFrom text (pyFind text "Link to Slack:"))

/-- Shared webhook-text step: `link.split("/p")[1].strip()` with a decimal
point inserted after the tenth character; `none` models the `IndexError` when
no `/p` occurs. -/
def extractSlackAddress (link : String) : Option String :=
  ((pySplit link "/p").get? 1).map (fun seg =>
    let sa := pyStrip seg
    pyTake 10 sa ++ "." ++ pyDrop 10 sa)

/-- Shared webhook-text step: `link.split("/")[-2].strip()`; `none` models the
`IndexError` when fewer than two slash-separated segments exist. -/
def extractChannelId (link : String) : Option String :=
  let parts := pySplit link "/"
  if parts.length ≥ 2 then (parts.get? (parts.length - 2)).map pyStrip else none

/-- Shared webhook-text step: the eight characters starting at the first
occurrence of `R-`. -/
def extractTicketNumber (text : String) : String :=
  let start_ticket := pyFind text "R-"
  pySlice text start_ticket (start_ticket + 8)

/-- Assignment-webhook step: the text between `Assigned to:` and the next
newline, split on the marker and stripped; `none` models the `IndexError`
when the marker is absent from the slice. -/
def extractAssignedName (text : String) : Option String :=
  let ap_start := pyFind text "Assigned to:"
  let newline_index := pyFindFrom text nlStr ap_start
  ((pySplit (pySlice text ap_start newline_index) "Assigned to:").get? 1).map pyStrip

/-- Result oracle for `reactions_get`: whether the response carries a
`message` object, and the reaction names on it. -/
structure ReactionsResp where
  hasMessage : Bool
  reactions : List String
deriving DecidableEq

/-- The read-then-write `:eyes:` block of `ticket_assigned` (src/app.py lines
449-464): the `reactions_get` call always happens; a raised error is swallowed
by the bare `except` (which only prints), and in that case nothing else in
the block runs — in particular no `reactions_add`. -/
def eyesEnsure (rx : Except Unit ReactionsResp) (channel ts : String) : List Effect :=
  Effect.reactionsGet channel ts ::
    match rx with
    | Except.error _ => []
    | Except.ok r =>
      if r.hasMessage then
        if r.reactions.contains "eyes" then []
        else [Effect.reactionsAdd "eyes" channel ts]
      else []

/-- In-thread reply of the assignment handler. -/
def assignedReply (user name : String) : String :=
  "Hi <@" ++ user ++ ">, your ticket is assigned to " ++ name ++ "."

/-- Python f-string interpolation of an optional id (`None` prints as "None"). -/
def optStr : Option String → String
  | some s => s
  | none => "None"

/-- Direct-message text of the assignment handler. -/
def dmText (assigned_user_id : Option String) (ticket_number link : String) : String :=
  "Hi <@" ++ optStr assigned_user_id ++ ">, you have been assigned to " ++ ticket_number ++
    ". " ++ nlStr ++ nlStr ++ link

/-- The `/ticketassigned` webhook handler (src/app.py lines 402-475) as a
function from the identity store, the webhook text (`blocks[0].text.text`),
the author of the thread's first message (oracle for `conversations_history`),
the `reactions_get` outcome and the id of the opened DM channel, to the effect
trace.  `none` models the `IndexError` crashes on malformed text. -/
def ticket_assigned (db : List UserRow) (text : String) (histUser : String)
    (rx : Except Unit ReactionsResp) (dmChannel : String) : Option (List Effect) :=
  match extractSlackAddress (extractLink text), extractChannelId (extractLink text) with
  | some slack_address, some channel_id =>
    match extractAssignedName text with
    | some assigned_person_name =>
      some (Effect.conversationsHistory channel_id slack_address ::
        eyesEnsure rx channel_id slack_address ++
        [Effect.chatPostMessage channel_id (assignedReply histUser assigned_person_name)
           slack_address,
         Effect.conversationsOpen (get_assigned_user_id db assigned_person_name),
         Effect.chatPostMessageDM dmChannel
           (dmText (get_assigned_user_id db assigned_person_name)
             (extractTicketNumber text) (extractLink text))])
    | none => none
  | _, _ => none

/-- One message of a fetched thread transcript; Python truthiness of the
`user`/`text`/`bot_id` fields is modelled by (non-)emptiness. -/
structure SlackMsg where
  user : String
  text : String
  bot_id : String

/-- Worker for `send_conversation_to_itop`: skips the first relayable message,
sends one `core/update` per remaining relayable message, and stops after the
first call whose status is not 200 (statuses are consumed per call). -/
def sendConvGo (ticket : String) : List SlackMsg → Bool → List Nat → List Effect
  | [], _, _ => []
  | m :: rest, firstFlag, sts =>
    if !(m.user == "") && !(m.text == "") && m.bot_id == "" then
      if firstFlag then sendConvGo ticket rest false sts
      else
        Effect.itopUpdate ticket m.text ::
          (if sts.headD 200 ≠ 200 then [] else sendConvGo ticket rest false sts.tail)
    else
      sendConvGo ticket rest firstFlag sts

/-- Source `send_conversation_to_itop` (src/app.py lines 157-197). -/
def send_conversation_to_itop (msgs : List SlackMsg) (ticket : String)
    (statuses : List Nat) : List Effect :=
  sendConvGo ticket msgs true statuses

/-- In-thread reply of the resolution handler. -/
def resolvedReply (user : String) : String :=
  "Hi <@" ++ user ++ ">, your ticket has been resolved, please check."

/-- The `/ticketresolve` webhook handler (src/app.py lines 478-539) as a
function from the tracker file, the webhook text, the first-message author
oracle, the fetched thread transcript and the per-call iTop update statuses,
to the new tracker file and the effect trace. -/
def ticket_resolved (file : List String) (text : String) (histUser : String)
    (convMsgs : List SlackMsg) (statuses : List Nat) :
    Option (List String × List Effect) :=
  let link := extractLink text
  match extractSlackAddress link, extractChannelId link with
  | some slack_address, some channel_id =>
    let ticket_number := extractTicketNumber text
    let user_id := histUser
    let file2 := markClosedLines file slack_address
    some (file2,
      [Effect.conversationsHistory channel_id slack_address,
       Effect.reactionsAdd "white_check_mark" channel_id slack_address,
       Effect.reactionsRemove "eyes" channel_id slack_address,
       Effect.chatPostMessage channel_id (resolvedReply user_id) slack_address,
       Effect.saveThreads file2,
       Effect.conversationsReplies channel_id slack_address] ++
      send_conversation_to_itop convMsgs ticket_number statuses)
  | _, _ => none

/-- Recogniser for iTop create effects. -/
def isCreateAct : Effect → Bool
  | Effect.itopCreate _ => true
  | _ => false

/-- Recogniser for threaded chat replies. -/
def isThreadPost : Effect → Bool
  | Effect.chatPostMessage _ _ _ => true
  | _ => false

/-- Recogniser for direct-message posts. -/
def isDmPost : Effect → Bool
  | Effect.chatPostMessageDM _ _ => true
  | _ => false

/-- Recogniser for a DM-channel open performed with a null user id. -/
def isOpenNone : Effect → Bool
  | Effect.conversationsOpen none => true
  | _ => false

/-- Recogniser for reaction additions. -/
def isReactAdd : Effect → Bool
  | Effect.reactionsAdd _ _ _ => true
  | _ => false

/-- The fields of the iTop create calls appearing in an effect trace. -/
def createdFields (acts : List Effect) : List TicketFields :=
  acts.filterMap (fun a =>
    match a with
    | Effect.itopCreate f => some f
    | _ => none)

/-- Section-8 example webhook text, with further text following the address on the
same line (the claim's "even though more text follows the URL on the same line"). -/
def c2exBad : String :=
  "Link to Slack: https://x.slack.com/archives/C1/p1699999999123456 info R-000111 info Assigned to: Jane Doe" ++
    nlStr ++ "tail"

/-- What the handlers actually store as the thread timestamp for `c2exBad`. -/
def c2badThread : String :=
  "1699999999.123456 info R-000111 info Assigned to: Jane Doe" ++ nlStr ++ "tail"

/-- A webhook text in which the back-link address is the final content, so the
split on "/p" isolates the bare digit token. -/
def c2exGood : String :=
  "R-000111 request" ++ nlStr ++ "Assigned to: Jane Doe" ++ nlStr ++
    "Link to Slack: https://x.slack.com/archives/C1/p1699999999123456"

/-- Section-8 sanitisation example message (special token `@U123`). -/
def c5ex : String := "check <http://example.com|example.com> and <@U123>"

/-- The sanitisation example with the source's hard-coded special token. -/
def c5exSrc : String := "check <http://example.com|example.com> and <@XXXXXXXXXX>"

/-- Empty identity store used by the concrete scenarios. -/
def db0 : List UserRow := []

/-- An identity store without the author `U1` of `ev0`. -/
def db1 : List UserRow := [⟨"U5", "u5", "Ann", "Able", "Ann Able", "ann@x.y", false⟩]

/-- A first mention event on an untracked thread. -/
def ev0 : MentionEvent := ⟨"C1", "1699999999.123456", none, "U1", "slack is broken"⟩

/-- A second mention event on the same thread. -/
def ev0b : MentionEvent :=
  ⟨"C1", "1700000000.000001", some "1699999999.123456", "U2", "still broken"⟩

/-- A successful iTop create response. -/
def resp0 : ItopCreateResp := ⟨200, "", "R-000111"⟩

/-- Another successful iTop create response. -/
def resp0b : ItopCreateResp := ⟨200, "", "R-000222"⟩

/-- A failing iTop create response. -/
def respFail : ItopCreateResp := ⟨500, "server error", ""⟩

/-- A successful reactions read with a message carrying no reactions. -/
def rxOk : Except Unit ReactionsResp := Except.ok ⟨true, []⟩

theorem startsL_iff (a : List Char) : ∀ l, startsL a l = true ↔ ∃ r, l = a ++ r := by
  induction a with
  | nil => intro l; simp [startsL]
  | cons c u ih =>
    intro l
    cases l with
    | nil =>
      simp only [startsL, List.cons_append]
      constructor
      · intro h; cases h
      · rintro ⟨r, h⟩; cases h
    | cons d v =>
      simp only [startsL, Bool.and_eq_true, beq_iff_eq, ih, List.cons_append]
      constructor
      · rintro ⟨h1, r, h2⟩
        exact ⟨r, by rw [h1, h2]⟩
      · rintro ⟨r, h⟩
        injection h with h1 h2
        exact ⟨h1.symm, r, h2⟩

theorem findSubAux_isSome (sub : List Char) :
    ∀ l, (findSubAux sub l).isSome = true ↔ ∃ u v, l = u ++ sub ++ v := by
  intro l
  induction l with
  | nil =>
    by_cases hs : sub = []
    · subst hs
      simp only [findSubAux, List.isEmpty_nil, if_pos, Option.isSome_some, true_iff]
      exact ⟨[], [], rfl⟩
    · have hs2 : sub.isEmpty = false := by
        cases sub with
        | nil => exact absurd rfl hs
        | cons x xs => rfl
      simp only [findSubAux, hs2, Bool.false_eq_true, if_false, Option.isSome_none,
        Bool.false_eq_true, false_iff]
      rintro ⟨u, v, huv⟩
      rcases List.append_eq_nil.mp huv.symm with ⟨h1, h2⟩
      rcases List.append_eq_nil.mp h1 with ⟨h3, h4⟩
      exact hs h4
  | cons c t ih =>
    by_cases hp : startsL sub (c :: t) = true
    · simp only [findSubAux, hp, if_pos, Option.isSome_some, true_iff]
      rcases (startsL_iff sub (c :: t)).mp hp with ⟨r, hr⟩
      exact ⟨[], r, by simpa using hr⟩
    · have hp2 : startsL sub (c :: t) = false := Bool.eq_false_iff.mpr hp
      simp only [findSubAux, hp2, Bool.false_eq_true, if_false]
      have hmap : (Option.map (fun k => k + 1) (findSubAux sub t)).isSome
          = (findSubAux sub t).isSome := by
        cases findSubAux sub t <;> rfl
      rw [hmap, ih]
      constructor
      · rintro ⟨u, v, huv⟩
        exact ⟨c :: u, v, by simp [huv]⟩
      · rintro ⟨u, v, huv⟩
        cases u with
        | nil =>
          exfalso
          apply hp
          apply (startsL_iff sub (c :: t)).mpr
          exact ⟨v, by simpa using huv⟩
        | cons d u2 =>
          rw [List.cons_append, List.cons_append] at huv
          injection huv with h1 h2
          exact ⟨u2, v, by simpa using h2⟩

theorem pyIn_iff (sub s : String) :
    pyIn sub s = true ↔ ∃ u v, s.data = u ++ sub.data ++ v := by
  unfold pyIn
  exact findSubAux_isSome sub.data s.data

theorem pyReplaceGo_self (a : List Char) (ha : a ≠ []) :
    ∀ fuel l, pyReplaceGo a a fuel l = l := by
  intro fuel
  induction fuel with
  | zero => intro l; cases l <;> rfl
  | succ n ih =>
    intro l
    cases l with
    | nil => rfl
    | cons c t =>
      by_cases hp : startsL a (c :: t) = true
      · simp only [pyReplaceGo, hp, if_pos]
        rw [ih]
        rcases (startsL_iff a (c :: t)).mp hp with ⟨r, hr⟩
        cases a with
        | nil => exact absurd rfl ha
        | cons b bs =>
          rw [List.cons_append] at hr
          injection hr with h1 h2
          subst h1
          rw [h2]
          simp [List.drop_left]
      · have hp2 : startsL a (c :: t) = false := Bool.eq_false_iff.mpr hp
        simp only [pyReplaceGo, hp2, Bool.false_eq_true, if_false]
        rw [ih]

theorem pyReplace_self (s a : String) : pyReplace s a a = s := by
  unfold pyReplace
  by_cases h : a.data.isEmpty = true
  · rw [if_pos h]
    have ha : a.data = [] := List.isEmpty_iff.mp h
    rw [ha]
    have : s.data.flatMap (fun c => c :: ([] : List Char)) = s.data := by
      induction s.data with
      | nil => rfl
      | cons c t iht => simp [List.flatMap_cons, iht]
    rw [this]
    rfl
  · rw [if_neg h]
    rw [pyReplaceGo_self]
    · intro hnil
      exact h (by simp [hnil])

theorem urlFold_id (urls : List String) :
    ∀ d, urls.foldl (fun d h => pyReplace d (pyRstripGt h) (pyRstripGt h)) d = d := by
  induction urls with
  | nil => intro d; rfl
  | cons h t ih =>
    intro d
    have hstep : (h :: t).foldl (fun d h => pyReplace d (pyRstripGt h) (pyRstripGt h)) d
        = t.foldl (fun d h => pyReplace d (pyRstripGt h) (pyRstripGt h))
            (pyReplace d (pyRstripGt h) (pyRstripGt h)) := rfl
    rw [hstep, pyReplace_self]
    exact ih d

theorem sanitizeWith_eq (special m : String) :
    sanitizeDescriptionWith special m = htmlEscape (unwrapTokens special m) := by
  unfold sanitizeDescriptionWith unwrapTokens
  simp only [urlFold_id]

theorem stripRightBy_decomp (p : Char → Bool) (l : List Char) :
    ∃ r, l = stripRightBy p l ++ r := by
  refine ⟨(l.reverse.takeWhile p).reverse, ?_⟩
  unfold stripRightBy
  rw [← List.reverse_append, List.takeWhile_append_dropWhile, List.reverse_reverse]

theorem pyIn_of_rstrip_eq (line t : String) (h : pyRstripWs line = t) :
    pyIn t line = true := by
  rcases stripRightBy_decomp pyIsSpace line.data with ⟨r, hr⟩
  apply (pyIn_iff t line).mpr
  refine ⟨[], r, ?_⟩
  have ht : t.data = stripRightBy pyIsSpace line.data := by
    rw [← h]
    rfl
  rw [ht, List.nil_append]
  exact hr

theorem rstrip_append_nl (s : String) : pyRstripWs (s ++ nlStr) = pyRstripWs s := by
  unfold pyRstripWs stripRightBy nlStr
  have hdata : (s ++ String.singleton (Char.ofNat 10)).data = s.data ++ [Char.ofNat 10] := rfl
  rw [hdata, List.reverse_append]
  have : pyIsSpace (Char.ofNat 10) = true := by decide
  simp [List.dropWhile, this]

theorem load_save (l : List String) :
    load_ticketed_threads (save_ticketed_threads l) = (l.map pyRstripWs).dedup := by
  unfold load_ticketed_threads save_ticketed_threads
  rw [List.map_map]
  congr 1
  apply List.map_congr_left
  intro x hx
  exact rstrip_append_nl x

theorem pyIn_pyLower (needle s : String)
    (hlow : needle.data.map Char.toLower = needle.data)
    (h : pyIn needle s = true) : pyIn needle (pyLower s) = true := by
  rcases (pyIn_iff needle s).mp h with ⟨u, v, huv⟩
  apply (pyIn_iff needle (pyLower s)).mpr
  refine ⟨u.map Char.toLower, v.map Char.toLower, ?_⟩
  have hd : (pyLower s).data = s.data.map Char.toLower := rfl
  rw [hd, huv]
  simp [hlow]

/-- C2: counterexample. On the section-8 example text, with more text following the
address on the same line, the handlers resolve channel C1, ticket R-000111 and
assignee Jane Doe as claimed, but the thread timestamp is not the bare dotted digit
token: everything from the first "/p" to the end of the text is kept, with the
decimal point inserted after the tenth character. -/
theorem webhook_extract_counterexample :
    extractChannelId (extractLink c2exBad) = some "C1" ∧
    extractTicketNumber c2exBad = "R-000111" ∧
    extractAssignedName c2exBad = some "Jane Doe" ∧
    extractSlackAddress (extractLink c2exBad) = some c2badThread ∧
    extractSlackAddress (extractLink c2exBad) ≠ some "1699999999.123456" := by
  decide

/-- C2 (amended): both webhook handlers take the channel identifier as the
second-to-last slash-separated segment of the text from the "Link to Slack:" marker
onward, the thread timestamp as the whole text between the first "/p" and the next
"/p" or the end of the text (stripped, with a decimal point inserted after the tenth
character) — which equals the bare platform timestamp only when the address's digit
token ends that segment — the ticket identifier as "R-" plus the six following
characters at its first occurrence, and the assignee name as the text between
"Assigned to:" and the next newline.  On the section-8 example with trailing text on
the address line, channel, ticket and assignee resolve as claimed while the thread
token keeps the trailing text; when the address ends the payload, the bare timestamp
1699999999.123456 is recovered, and the resolve handler then acts on channel C1 and
that thread. -/
theorem webhook_extract_behavior :
    extractSlackAddress (extractLink c2exBad) = some c2badThread ∧
    extractSlackAddress (extractLink c2exGood) = some "1699999999.123456" ∧
    extractChannelId (extractLink c2exGood) = some "C1" ∧
    extractTicketNumber c2exGood = "R-000111" ∧
    extractAssignedName c2exGood = some "Jane Doe" ∧
    ticket_resolved ["1699999999.123456" ++ nlStr] c2exGood "U9" [] [] =
      some ([],
        [Effect.conversationsHistory "C1" "1699999999.123456",
         Effect.reactionsAdd "white_check_mark" "C1" "1699999999.123456",
         Effect.reactionsRemove "eyes" "C1" "1699999999.123456",
         Effect.chatPostMessage "C1" (resolvedReply "U9") "1699999999.123456",
         Effect.saveThreads [],
         Effect.conversationsReplies "C1" "1699999999.123456"]) := by
  decide

/-- C3: title derivation evaluates the ordered rule table strictly top-to-bottom and
returns the label of the first rule whose predicate matches (empty string when no
rule matches), and any message containing both "slack" and "upload" is titled
"Slack issue", never "Upload Consultation". -/
theorem deriveTitle_first_match :
    (∀ m, deriveTitle m = firstMatchTitle ruleTable m) ∧
    (∀ m, pyIn "slack" m = true → pyIn "upload" m = true →
      deriveTitle m = "Slack issue") := by
  constructor
  · intro m
    rfl
  · intro m h1 _h2
    have h3 : pyIn "slack" (pyLower m) = true := pyIn_pyLower "slack" m (by decide) h1
    unfold deriveTitle
    rw [h3]
    simp

/-- C3 witness: concrete instance of the order-sensitivity half. -/
theorem deriveTitle_first_match_check :
    pyIn "slack" "the slack upload fails" = true ∧
    pyIn "upload" "the slack upload fails" = true ∧
    deriveTitle "the slack upload fails" = "Slack issue" :=
  ⟨by decide, by decide,
    deriveTitle_first_match.2 "the slack upload fails" (by decide) (by decide)⟩

/-- C4: the source's rule-3 test compares the capitalised literal "Shadowsocks"
against the lowercased message, a condition that can never hold, so a message whose
only spelling is the capitalised "Shadowsocks" (and which matches no earlier rule)
is titled with the empty string instead of "Shadowsocks issue"; the all-lowercase
spelling still works. -/
theorem deriveTitle_shadowsocks_bug :
    deriveTitle "Shadowsocks is blocked" = "" ∧
    deriveTitle "shadowsocks is blocked" = "Shadowsocks issue" := by
  decide

/-- C5: sanitisation is exactly the markup-unwrap pass followed by one HTML escape
(the URL pass replaces each found hyperlink by itself, leaving bare URLs as-is);
on the section-8 example the literal URL survives unmodified, the bracketed URL
token is unwrapped, and the designated special token is replaced by the fixed
mention label. -/
theorem sanitizeDescription_spec :
    (∀ special m, sanitizeDescriptionWith special m = htmlEscape (unwrapTokens special m)) ∧
    sanitizeDescriptionWith "@U123" c5ex =
      "check http://example.com|example.com and xxx Ticketing System" ∧
    pyIn "http://example.com" (sanitizeDescriptionWith "@U123" c5ex) = true ∧
    pyIn "<@U123>" (sanitizeDescriptionWith "@U123" c5ex) = false ∧
    pyIn mentionLabel (sanitizeDescriptionWith "@U123" c5ex) = true ∧
    sanitizeDescription c5exSrc =
      "check http://example.com|example.com and xxx Ticketing System" := by
  refine ⟨sanitizeWith_eq, ?_, ?_, ?_, ?_, ?_⟩ <;> decide

/-- C6: the resolve path's tracker rewrite keeps exactly the stored lines that do not
contain the thread token as a substring; hence any stored line merely containing the
token as a substring is removed, and after markOpen followed by markClosed the thread
is no longer open and no persisted line contains any trace of the token. -/
theorem markClosed_substring (file : List String) (t : String) (lines : List String) :
    markClosedLines lines t = lines.filter (fun line => !(pyIn t line)) ∧
    (∀ line, line ∈ lines → pyIn t line = true → line ∉ markClosedLines lines t) ∧
    isOpen (markClosedLines (markOpen file t) t) t = false ∧
    (∀ line, line ∈ markClosedLines (markOpen file t) t → pyIn t line = false) := by
  refine ⟨rfl, ?_, ?_, ?_⟩
  · intro line hmem hin hmem2
    have hkeep := (List.mem_filter.mp hmem2).2
    rw [hin] at hkeep
    simp at hkeep
  · unfold isOpen
    apply decide_eq_false
    intro hmem
    unfold load_ticketed_threads at hmem
    rw [List.mem_dedup] at hmem
    rcases List.mem_map.mp hmem with ⟨line, hline, hr⟩
    have hin := pyIn_of_rstrip_eq line t hr
    have hkeep := (List.mem_filter.mp hline).2
    rw [hin] at hkeep
    simp at hkeep
  · intro line hmem
    have hkeep := (List.mem_filter.mp hmem).2
    cases hq : pyIn t line with
    | false => rfl
    | true =>
      rw [hq] at hkeep
      simp at hkeep

/-- C6 witness: a stored line that merely contains the token is removed. -/
theorem markClosed_substring_check :
    ("T1x" ++ nlStr) ∈ ["T1x" ++ nlStr, "zz" ++ nlStr] ∧
    pyIn "T1" ("T1x" ++ nlStr) = true ∧
    ("T1x" ++ nlStr) ∉ markClosedLines ["T1x" ++ nlStr, "zz" ++ nlStr] "T1" :=
  ⟨by decide, by decide,
    (markClosed_substring [] "T1" ["T1x" ++ nlStr, "zz" ++ nlStr]).2.1
      ("T1x" ++ nlStr) (by decide) (by decide)⟩

theorem eyesEnsure_counts (rx : Except Unit ReactionsResp) (ch sa : String) :
    (eyesEnsure rx ch sa).countP isThreadPost = 0 ∧
    (eyesEnsure rx ch sa).countP isOpenNone = 0 ∧
    (eyesEnsure rx ch sa).countP isDmPost = 0 := by
  unfold eyesEnsure
  cases rx with
  | error e => exact ⟨rfl, rfl, rfl⟩
  | ok r =>
    obtain ⟨hm, rs⟩ := r
    cases hm with
    | false => exact ⟨rfl, rfl, rfl⟩
    | true =>
      cases hc : rs.contains "eyes" with
      | true =>
        simp only [hc, if_true]
        exact ⟨rfl, rfl, rfl⟩
      | false =>
        simp only [hc, Bool.false_eq_true, if_false]
        exact ⟨rfl, rfl, rfl⟩

/-- C1: when the thread is already in the persisted tracker, the create handler only
posts the in-thread "being resolved" reply and performs no iTop create call and no
state change; on an untracked thread the first call performs exactly one create call
and persists the thread, so a second call for the same thread identifier only
replies.  The thread token is assumed nonempty and free of trailing whitespace, as
the platform's timestamp tokens are. -/
theorem raise_ticket_idempotent
    (db : List UserRow) (file : List String) (ev ev2 : MentionEvent)
    (resp resp2 : ItopCreateResp)
    (hsame : threadTs ev2 = threadTs ev)
    (hnot : threadTs ev ∉ load_ticketed_threads file)
    (hne : threadTs ev ≠ "")
    (hclean : pyRstripWs (threadTs ev) = threadTs ev) :
    (∀ file3 : List String, threadTs ev ∈ load_ticketed_threads file3 →
      raise_ticket db file3 ev resp =
        some (file3,
          [Effect.chatPostMessage ev.channel (alreadyReply ev.user) (threadTs ev)])) ∧
    ((raise_ticket db file ev resp).map (fun r => (r.1, r.2.countP isCreateAct)) =
        some (markOpen file (threadTs ev), 1) ∧
      raise_ticket db (markOpen file (threadTs ev)) ev2 resp2 =
        some (markOpen file (threadTs ev),
          [Effect.chatPostMessage ev2.channel (alreadyReply ev2.user) (threadTs ev2)])) := by
  have hmem1 : threadTs ev ∈ load_ticketed_threads (markOpen file (threadTs ev)) := by
    unfold markOpen
    rw [if_neg hnot, load_save, List.mem_dedup]
    refine List.mem_map.mpr ⟨threadTs ev, ?_, hclean⟩
    simp
  constructor
  · intro file3 h3
    have hopen3 : isOpen file3 (threadTs ev) = true := decide_eq_true h3
    simp only [raise_ticket, hopen3, if_true]
  · constructor
    · have hopen : isOpen file (threadTs ev) = false := decide_eq_false hnot
      simp only [raise_ticket, hopen, Bool.false_eq_true, if_false, if_neg hne]
      by_cases hst : resp.status = 200
      · rw [if_neg (fun h => h hst)]
        simp [isCreateAct, List.countP_cons, List.countP_nil]
      · rw [if_pos hst]
        simp [isCreateAct, List.countP_cons, List.countP_nil]
    · have hopen2 : isOpen (markOpen file (threadTs ev)) (threadTs ev2) = true := by
        rw [hsame]
        exact decide_eq_true hmem1
      simp only [raise_ticket, hopen2, if_true]

/-- C1 witness: two consecutive mentions on the same, initially untracked thread. -/
theorem raise_ticket_idempotent_check :
    (threadTs ev0b = threadTs ev0 ∧ threadTs ev0 ∉ load_ticketed_threads [] ∧
      threadTs ev0 ≠ "" ∧ pyRstripWs (threadTs ev0) = threadTs ev0) ∧
    ((raise_ticket db0 [] ev0 resp0).map (fun r => (r.1, r.2.countP isCreateAct)) =
        some (markOpen [] (threadTs ev0), 1) ∧
      raise_ticket db0 (markOpen [] (threadTs ev0)) ev0b resp0b =
        some (markOpen [] (threadTs ev0),
          [Effect.chatPostMessage ev0b.channel (alreadyReply ev0b.user) (threadTs ev0b)])) :=
  ⟨⟨by decide, by decide, by decide, by decide⟩,
    (raise_ticket_idempotent db0 [] ev0 ev0b resp0 resp0b
      (by decide) (by decide) (by decide) (by decide)).2⟩

/-- C7: on an untracked thread the create path persists the enlarged tracker before
submitting the create request; on a non-200 response the trace is exactly the save,
the create call and the failure log — no in-thread reply — and the thread's line is
still present in the persisted tracker (no rollback). -/
theorem raise_ticket_no_rollback
    (db : List UserRow) (file : List String) (ev : MentionEvent) (resp : ItopCreateResp)
    (hnot : threadTs ev ∉ load_ticketed_threads file)
    (hne : threadTs ev ≠ "")
    (hfail : resp.status ≠ 200) :
    raise_ticket db file ev resp =
      some (markOpen file (threadTs ev),
        [Effect.saveThreads (markOpen file (threadTs ev)),
         Effect.itopCreate (buildFields db ev),
         Effect.logError ("Failed to create iTop ticket: " ++ resp.body)]) ∧
    (threadTs ev ++ nlStr) ∈ markOpen file (threadTs ev) := by
  constructor
  · have hopen : isOpen file (threadTs ev) = false := decide_eq_false hnot
    simp only [raise_ticket, hopen, Bool.false_eq_true, if_false, if_neg hne, if_pos hfail]
  · unfold markOpen
    rw [if_neg hnot]
    unfold save_ticketed_threads
    refine List.mem_map.mpr ⟨threadTs ev, ?_, rfl⟩
    simp

/-- C7 witness: a concrete failing create on an untracked thread. -/
theorem raise_ticket_no_rollback_check :
    (threadTs ev0 ∉ load_ticketed_threads [] ∧ threadTs ev0 ≠ "" ∧
      respFail.status ≠ 200) ∧
    (raise_ticket db0 [] ev0 respFail =
      some (markOpen [] (threadTs ev0),
        [Effect.saveThreads (markOpen [] (threadTs ev0)),
         Effect.itopCreate (buildFields db0 ev0),
         Effect.logError ("Failed to create iTop ticket: " ++ respFail.body)]) ∧
      (threadTs ev0 ++ nlStr) ∈ markOpen [] (threadTs ev0)) :=
  ⟨⟨by decide, by decide, by decide⟩,
    raise_ticket_no_rollback db0 [] ev0 respFail (by decide) (by decide) (by decide)⟩

/-- C10: an author identifier with no row in the identity store yields the empty
name pair, and the create path still performs the iTop create call whose caller
first-name and last-name fields are both empty. -/
theorem raise_ticket_unknown_caller
    (db : List UserRow) (file : List String) (ev : MentionEvent) (resp : ItopCreateResp)
    (hnouser : db.find? (fun r => r.id == ev.user) = none)
    (hnot : threadTs ev ∉ load_ticketed_threads file)
    (hne : threadTs ev ≠ "") :
    get_user_info_from_db db ev.user = ("", "") ∧
    (buildFields db ev).caller_first_name = "" ∧
    (buildFields db ev).caller_name = "" ∧
    (raise_ticket db file ev resp).map (fun r => createdFields r.2) =
      some [buildFields db ev] := by
  have hinfo : get_user_info_from_db db ev.user = ("", "") := by
    unfold get_user_info_from_db
    rw [hnouser]
  have hfirst : (buildFields db ev).caller_first_name = "" := by
    unfold buildFields
    rw [hinfo]
  have hlast : (buildFields db ev).caller_name = "" := by
    unfold buildFields
    rw [hinfo]
  refine ⟨hinfo, hfirst, hlast, ?_⟩
  have hopen : isOpen file (threadTs ev) = false := decide_eq_false hnot
  simp only [raise_ticket, hopen, Bool.false_eq_true, if_false, if_neg hne]
  by_cases hst : resp.status = 200
  · rw [if_neg (fun h => h hst)]
    simp [createdFields, List.filterMap]
  · rw [if_pos hst]
    simp [createdFields, List.filterMap]

/-- C10 witness: an author absent from a nonempty identity store. -/
theorem raise_ticket_unknown_caller_check :
    (List.find? (fun r => r.id == ev0.user) db1 = none ∧
      threadTs ev0 ∉ load_ticketed_threads [] ∧ threadTs ev0 ≠ "") ∧
    (get_user_info_from_db db1 ev0.user = ("", "") ∧
      (buildFields db1 ev0).caller_first_name = "" ∧
      (buildFields db1 ev0).caller_name = "" ∧
      (raise_ticket db1 [] ev0 resp0).map (fun r => createdFields r.2) =
        some [buildFields db1 ev0]) :=
  ⟨⟨by decide, by decide, by decide⟩,
    raise_ticket_unknown_caller db1 [] ev0 resp0 (by decide) (by decide) (by decide)⟩

/-- C8: counterexample. With an empty identity store the assignee lookup misses, yet
running the assignment handler on the example payload produces a trace containing a
DM-conversation open with a null user id: the direct-message step is attempted, not
skipped. -/
theorem ticket_assigned_lookup_miss_counterexample :
    get_assigned_user_id [] "Jane Doe" = none ∧
    extractAssignedName c2exBad = some "Jane Doe" ∧
    ((ticket_assigned [] c2exBad "U9" rxOk "D1").getD []).countP isOpenNone = 1 ∧
    ((ticket_assigned [] c2exBad "U9" rxOk "D1").getD []).countP isThreadPost = 1 := by
  decide

/-- C8 (amended): when the extracted assignee display name has no matching member in
the identity store, the name lookup yields a null member identifier and the
in-thread reply naming the assignee is still posted, but the direct-message step is
not skipped: the handler opens a DM conversation passing the null identifier and
posts the direct message (interpolating the null value). -/
theorem ticket_assigned_lookup_miss
    (db : List UserRow) (text histUser dmChannel : String)
    (rx : Except Unit ReactionsResp) (nm : String)
    (hsome : (ticket_assigned db text histUser rx dmChannel).isSome = true)
    (hnm : extractAssignedName text = some nm)
    (hmiss : db.find? (fun r => r.real_name == nm) = none) :
    get_assigned_user_id db nm = none ∧
    ((ticket_assigned db text histUser rx dmChannel).getD []).countP isThreadPost = 1 ∧
    ((ticket_assigned db text histUser rx dmChannel).getD []).countP isOpenNone = 1 ∧
    ((ticket_assigned db text histUser rx dmChannel).getD []).countP isDmPost = 1 := by
  have hnone : get_assigned_user_id db nm = none := by
    unfold get_assigned_user_id
    rw [hmiss]
    rfl
  refine ⟨hnone, ?_⟩
  cases hsa : extractSlackAddress (extractLink text) with
  | none =>
    exfalso
    unfold ticket_assigned at hsome
    rw [hsa] at hsome
    simp at hsome
  | some sa =>
    cases hch : extractChannelId (extractLink text) with
    | none =>
      exfalso
      unfold ticket_assigned at hsome
      rw [hsa, hch] at hsome
      simp at hsome
    | some ch =>
      have hcounts := eyesEnsure_counts rx ch sa
      simp only [ticket_assigned, hsa, hch, hnm, hnone, Option.getD_some]
      refine ⟨?_, ?_, ?_⟩ <;>
        simp [List.countP_cons, List.countP_append, List.countP_nil,
          hcounts.1, hcounts.2.1, hcounts.2.2,
          isThreadPost, isOpenNone, isDmPost]

/-- C8 witness: the example payload against an empty identity store. -/
theorem ticket_assigned_lookup_miss_check :
    ((ticket_assigned [] c2exGood "U9" rxOk "D1").isSome = true ∧
      extractAssignedName c2exGood = some "Jane Doe" ∧
      List.find? (fun r : UserRow => r.real_name == "Jane Doe") ([] : List UserRow) = none) ∧
    (get_assigned_user_id [] "Jane Doe" = none ∧
      ((ticket_assigned [] c2exGood "U9" rxOk "D1").getD []).countP isThreadPost = 1 ∧
      ((ticket_assigned [] c2exGood "U9" rxOk "D1").getD []).countP isOpenNone = 1 ∧
      ((ticket_assigned [] c2exGood "U9" rxOk "D1").getD []).countP isDmPost = 1) :=
  ⟨⟨by decide, by decide, by decide⟩,
    ticket_assigned_lookup_miss [] c2exGood "U9" "D1" rxOk "Jane Doe"
      (by decide) (by decide) (by decide)⟩

/-- C9: counterexample. On the example payload with a failing reactions read, the
handler completes and posts both the in-thread reply and the direct message, but it
performs no reaction add at all: the best-effort add is skipped, not attempted. -/
theorem ticket_assigned_reaction_failure_counterexample :
    (ticket_assigned [] c2exBad "U9" (Except.error ()) "D1").isSome = true ∧
    ((ticket_assigned [] c2exBad "U9" (Except.error ()) "D1").getD []).countP isReactAdd = 0 ∧
    ((ticket_assigned [] c2exBad "U9" (Except.error ()) "D1").getD []).countP isThreadPost = 1 ∧
    ((ticket_assigned [] c2exBad "U9" (Except.error ()) "D1").getD []).countP isDmPost = 1 := by
  decide

/-- C9 (amended): a failure of the reactions read is swallowed — the handler does not
crash and still posts the in-thread and direct-message replies — but the eyes
reaction add, which lives inside the same protected block, is skipped rather than
attempted: the trace contains no reaction add. -/
theorem ticket_assigned_reaction_failure
    (db : List UserRow) (text histUser dmChannel : String)
    (hsome : (ticket_assigned db text histUser (Except.error ()) dmChannel).isSome = true) :
    ((ticket_assigned db text histUser (Except.error ()) dmChannel).getD []).countP isReactAdd = 0 ∧
    ((ticket_assigned db text histUser (Except.error ()) dmChannel).getD []).countP isThreadPost = 1 ∧
    ((ticket_assigned db text histUser (Except.error ()) dmChannel).getD []).countP isDmPost = 1 := by
  cases hsa : extractSlackAddress (extractLink text) with
  | none =>
    exfalso
    unfold ticket_assigned at hsome
    rw [hsa] at hsome
    simp at hsome
  | some sa =>
    cases hch : extractChannelId (extractLink text) with
    | none =>
      exfalso
      unfold ticket_assigned at hsome
      rw [hsa, hch] at hsome
      simp at hsome
    | some ch =>
      cases hnm : extractAssignedName text with
      | none =>
        exfalso
        unfold ticket_assigned at hsome
        rw [hsa, hch, hnm] at hsome
        simp at hsome
      | some nm =>
        simp only [ticket_assigned, hsa, hch, hnm, Option.getD_some]
        refine ⟨?_, ?_, ?_⟩ <;>
          simp [eyesEnsure, List.countP_cons, List.countP_append, List.countP_nil,
            isReactAdd, isThreadPost, isDmPost]

/-- C9 witness: a concrete run with a failing reactions read. -/
theorem ticket_assigned_reaction_failure_check :
    (ticket_assigned [] c2exGood "U9" (Except.error ()) "D1").isSome = true ∧
    (((ticket_assigned [] c2exGood "U9" (Except.error ()) "D1").getD []).countP isReactAdd = 0 ∧
      ((ticket_assigned [] c2exGood "U9" (Except.error ()) "D1").getD []).countP isThreadPost = 1 ∧
      ((ticket_assigned [] c2exGood "U9" (Except.error ()) "D1").getD []).countP isDmPost = 1) :=
  ⟨by decide, ticket_assigned_reaction_failure [] c2exGood "U9" "D1" (by decide)⟩
